import Mathlib

set_option maxRecDepth 8000

/-!
Shallow embedding of the extraction pipeline in `lambda_example/index.py`:
a DOM model for the pages BeautifulSoup parses, the two selector-based
extractions (`parse`), the timestamp parse (`datetime.strptime` at the fixed
format used by `get_latest_update`), the reporting-window computation
(`get_month_count`), the S3 persistence (`save`), and the request handler
(`lambda_handler`).  Network access and the S3 client are modelled as
injected collaborators: a `Fetch` oracle mapping (url, params) to a fetched
document or a raised error, and step dependencies mirroring how the tests
mock `get_latest_update` / `get_month_count` / `save`.
-/

namespace LambdaDemo

/-- A DOM node: the tree shape BeautifulSoup exposes after parsing page text.
`elem` carries the tag name, the attribute dictionary and the child list
(`.contents`); `text` is a NavigableString. -/
inductive Node where
  | elem (tag : String) (attrs : List (String × String)) (children : List Node)
  | text (s : String)

/-- A parsed page: the top-level nodes of the document. -/
abbrev Doc := List Node

/-- Python `dict.get`: first binding of the key, if any. -/
def dictGet (k : String) : List (String × String) → Option String
  | [] => Option.none
  | (k2, v) :: rest => if k2 = k then some v else dictGet k rest

/-- Attribute dictionary of a node (`tag.attrs`); empty for text nodes. -/
def Node.attrs : Node → List (String × String)
  | .elem _ a _ => a
  | .text _ => []

/-- Child list of a node (`tag.contents`); empty for text nodes. -/
def Node.children : Node → List Node
  | .elem _ _ cs => cs
  | .text _ => []

/-- Whether the node is an element with the given tag name. -/
def Node.tagIs (t : String) : Node → Bool
  | .elem tg _ _ => tg = t
  | .text _ => false

/-- Whitespace tokenization of an attribute value (Python `str.split()`),
accumulating the current token in reverse. -/
def splitWsAux : List Char → List Char → List String
  | [], acc => if acc = [] then [] else [⟨acc.reverse⟩]
  | c :: cs, acc =>
    if c.isWhitespace then
      (if acc = [] then splitWsAux cs [] else ⟨acc.reverse⟩ :: splitWsAux cs [])
    else splitWsAux cs (c :: acc)

/-- The whitespace-separated tokens of a string. -/
def classTokens (s : String) : List String := splitWsAux s.toList []

/-- BeautifulSoup class matching: the `class` attribute is whitespace-split
into tokens and the query matches if the token list contains it. -/
def Node.hasClass (c : String) (n : Node) : Bool :=
  match n with
  | .text _ => false
  | .elem _ a _ =>
    match dictGet "class" a with
    | some s => (classTokens s).contains c
    | Option.none => false

mutual

/-- Preorder (document-order) listing of a node and all its descendants. -/
def Node.selfAndDescendants : Node → List Node
  | .text s => [.text s]
  | .elem t a cs => .elem t a cs :: descendantsList cs
termination_by structural n => n

/-- Preorder listing of every node in a forest. -/
def descendantsList : List Node → List Node
  | [] => []
  | n :: ns => Node.selfAndDescendants n ++ descendantsList ns
termination_by structural ns => ns

end

/-- Descendants of a node, itself excluded (the search space of `tag.find_all`). -/
def Node.descendants : Node → List Node
  | .text _ => []
  | .elem _ _ cs => descendantsList cs

/-- `soup.find_all(class_=c)`: every node of the document carrying class `c`,
in document order. -/
def find_all_class (c : String) (d : Doc) : List Node :=
  (descendantsList d).filter (Node.hasClass c)

/-- `soup.find('section', {'id': 'month-counts'})`: first section element
with the month-counts identifier, or `none`. -/
def find_month_counts_section (d : Doc) : Option Node :=
  (descendantsList d).find? (fun n => n.tagIs "section" && dictGet "id" n.attrs == some "month-counts")

/-- `section.find_all('tr')`: descendant table rows in document order. -/
def find_all_tr (sec : Node) : List Node :=
  sec.descendants.filter (Node.tagIs "tr")

/-- `row.find("td", {'class': 'sort-entry--edits'})`: first descendant cell
carrying the edit-count class, or `none`. -/
def find_td_edits (row : Node) : Option Node :=
  row.descendants.find? (fun n => n.tagIs "td" && n.hasClass "sort-entry--edits")

/-- Attribute rendering used by `str(Tag)`. -/
def renderAttrs : List (String × String) → String
  | [] => ""
  | (k, v) :: rest => " " ++ k ++ "=\"" ++ v ++ "\"" ++ renderAttrs rest

mutual

/-- `str` of a BeautifulSoup node: text content, or the serialized markup. -/
def Node.render : Node → String
  | .text s => s
  | .elem t a cs => "<" ++ t ++ renderAttrs a ++ ">" ++ renderChildren cs ++ "</" ++ t ++ ">"
termination_by structural n => n

/-- `str` of a node list, concatenated. -/
def renderChildren : List Node → String
  | [] => ""
  | n :: ns => Node.render n ++ renderChildren ns
termination_by structural ns => ns

end

/-- The Python exceptions the pipeline can raise. -/
inductive PyError where
  | indexError
  | attributeError
  | valueError (msg : String)

/-- `str(e)`: the exception text embedded into the 500 response. -/
def PyError.str : PyError → String
  | .indexError => "list index out of range"
  | .attributeError => "\x27NoneType\x27 object has no attribute \x27find_all\x27"
  | .valueError m => m

/-- The Python values flowing out of `parse` and into `save` and the 200
message: a string (NavigableString included), an int (as the tests stub the
month count), `None`, or a Tag. -/
inductive PyVal where
  | str (s : String)
  | int (n : Int)
  | pynone
  | tag (nd : Node)

/-- Python `str()` of such a value, as an f-string renders it. -/
def PyVal.pyStr : PyVal → String
  | .str s => s
  | .int n => toString n
  | .pynone => "None"
  | .tag nd => nd.render

/-- JSON string escaping as `json.dumps` performs it on the characters that
occur here. -/
def jsonEscapeChar (c : Char) : String :=
  if c = '"' then "\\\"" else if c = '\\' then "\\\\"
  else if c = '\n' then "\\n" else if c = '\t' then "\\t"
  else if c = '\r' then "\\r" else String.singleton c

/-- Escape a whole string for embedding in a JSON document. -/
def jsonEscape (s : String) : String :=
  String.join (s.toList.map jsonEscapeChar)

/-- `json.dumps` of a single value; `none` models the TypeError raised on a
non-serializable object (a Tag). -/
def PyVal.jsonStr : PyVal → Option String
  | .str s => some ("\"" ++ jsonEscape s ++ "\"")
  | .int n => some (toString n)
  | .pynone => some "null"
  | .tag _ => Option.none

/-- Serialized `"key": value` entries of a dict, in insertion order. -/
def jsonDumpsEntries : List (String × PyVal) → Option (List String)
  | [] => some []
  | (k, v) :: rest =>
    match v.jsonStr, jsonDumpsEntries rest with
    | some js, some tail => some (("\"" ++ jsonEscape k ++ "\": " ++ js) :: tail)
    | _, _ => Option.none

/-- Join with the default `json.dumps` item separator. -/
def commaJoin : List String → String
  | [] => ""
  | [s] => s
  | s :: rest => s ++ ", " ++ commaJoin rest

/-- `json.dumps` of a dict with the given insertion order. -/
def jsonDumps (kvs : List (String × PyVal)) : Option String :=
  (jsonDumpsEntries kvs).map (fun es => "\x7b" ++ commaJoin es ++ "\x7d")

/-- The loop body of the stats branch of `parse`: scan the rows in order and
return on the FIRST row owning an edit-count cell; the returned value is that
cell's `data-value` attribute (`None` when the attribute is absent).  Falling
off the loop returns the implicit `None`. -/
def scanRows : List Node → Option String
  | [] => Option.none
  | row :: rest =>
    match find_td_edits row with
    | some col => dictGet "data-value" col.attrs
    | Option.none => scanRows rest

/-- Wrap an optional string the way the Python value comes out. -/
def pyOfOpt : Option String → PyVal
  | some s => .str s
  | Option.none => .pynone

/-- `parse(page, source)` from `index.py`: for `'wiki'`, the first content of
the first element with the revision-timestamp class (IndexError when the
element list or its contents are empty); otherwise locate the month-counts
section (AttributeError when absent, from calling `find_all` on `None`) and
scan its rows for the first edit-count cell's `data-value`. -/
def parse (page : Doc) (source : String) : Except PyError PyVal :=
  if source = "wiki" then
    match find_all_class "mw-changeslist-date" page with
    | [] => .error .indexError
    | n :: _ =>
      match n.children with
      | [] => .error .indexError
      | Node.text s :: _ => .ok (.str s)
      | e :: _ => .ok (.tag e)
  else
    match find_month_counts_section page with
    | Option.none => .error .attributeError
    | some sec => .ok (pyOfOpt (scanRows (find_all_tr sec)))

/-- Greedy consumption of at most `n` leading digits. -/
def takeDigits : Nat → List Char → List Char × List Char
  | 0, cs => ([], cs)
  | _ + 1, [] => ([], [])
  | n + 1, c :: cs =>
    if c.isDigit then
      let r := takeDigits n cs
      (c :: r.1, r.2)
    else ([], c :: cs)

/-- Decimal value of a digit list. -/
def digitsToNat (ds : List Char) : Nat :=
  ds.foldl (fun acc c => acc * 10 + (c.toNat - 48)) 0

/-- Consume a literal, case-insensitively (how `%B` matches month names). -/
def eatLiteralCI : List Char → List Char → Option (List Char)
  | [], cs => some cs
  | _ :: _, [] => Option.none
  | l :: ls, c :: cs => if c.toLower = l.toLower then eatLiteralCI ls cs else Option.none

/-- Full month names recognized by `%B`, with their numbers. -/
def monthNames : List (String × Nat) :=
  [("January", 1), ("February", 2), ("March", 3), ("April", 4), ("May", 5), ("June", 6),
   ("July", 7), ("August", 8), ("September", 9), ("October", 10), ("November", 11),
   ("December", 12)]

/-- Try each month name as a prefix of the input. -/
def eatMonthFrom : List (String × Nat) → List Char → Option (Nat × List Char)
  | [], _ => Option.none
  | (nm, m) :: rest, cs =>
    match eatLiteralCI nm.toList cs with
    | some cs2 => some (m, cs2)
    | Option.none => eatMonthFrom rest cs

/-- A Python `datetime` (microseconds are always 0 in this pipeline). -/
structure PyDateTime where
  year : Nat
  month : Nat
  day : Nat
  hour : Nat
  minute : Nat
  second : Nat
deriving DecidableEq

/-- Zero-padded two-digit rendering. -/
def pad2 (n : Nat) : String := if n < 10 then "0" ++ toString n else toString n

/-- Zero-padded four-digit rendering. -/
def pad4 (n : Nat) : String :=
  if n < 10 then "000" ++ toString n else if n < 100 then "00" ++ toString n
  else if n < 1000 then "0" ++ toString n else toString n

/-- Python `str(datetime)`: `YYYY-MM-DD HH:MM:SS`. -/
def PyDateTime.pyStr (d : PyDateTime) : String :=
  pad4 d.year ++ "-" ++ pad2 d.month ++ "-" ++ pad2 d.day ++ " " ++
    pad2 d.hour ++ ":" ++ pad2 d.minute ++ ":" ++ pad2 d.second

/-- Python `datetime.isoformat()`: `YYYY-MM-DDTHH:MM:SS`. -/
def PyDateTime.isoformat (d : PyDateTime) : String :=
  pad4 d.year ++ "-" ++ pad2 d.month ++ "-" ++ pad2 d.day ++ "T" ++
    pad2 d.hour ++ ":" ++ pad2 d.minute ++ ":" ++ pad2 d.second

/-- A Python `date`. -/
structure PyDate where
  year : Nat
  month : Nat
  day : Nat
deriving DecidableEq

/-- `datetime.date()`. -/
def PyDateTime.date (d : PyDateTime) : PyDate := ⟨d.year, d.month, d.day⟩

/-- `date.replace(day=k)`. -/
def PyDate.replaceDay (d : PyDate) (day : Nat) : PyDate := ⟨d.year, d.month, day⟩

/-- `str(date)` = `date.isoformat()`: `YYYY-MM-DD`. -/
def PyDate.isoformat (d : PyDate) : String :=
  pad4 d.year ++ "-" ++ pad2 d.month ++ "-" ++ pad2 d.day

/-- Structural parse of the fixed format `%H:%M, %d %B %Y`: 1-2 digit hour,
colon, 1-2 digit minute, comma-space, 1-2 digit day, space, month name,
space, exactly four year digits, end of input. -/
def parseWikiTime (cs0 : List Char) : Option PyDateTime :=
  match takeDigits 2 cs0 with
  | ([], _) => Option.none
  | (hds, cs1) =>
    match cs1 with
    | ':' :: cs2 =>
      match takeDigits 2 cs2 with
      | ([], _) => Option.none
      | (mds, cs3) =>
        match cs3 with
        | ',' :: ' ' :: cs4 =>
          match takeDigits 2 cs4 with
          | ([], _) => Option.none
          | (dds, cs5) =>
            match cs5 with
            | ' ' :: cs6 =>
              match eatMonthFrom monthNames cs6 with
              | Option.none => Option.none
              | some (mon, cs7) =>
                match cs7 with
                | ' ' :: cs8 =>
                  match takeDigits 4 cs8 with
                  | (yds, []) =>
                    if yds.length = 4 then
                      some ⟨digitsToNat yds, mon, digitsToNat dds,
                            digitsToNat hds, digitsToNat mds, 0⟩
                    else Option.none
                  | _ => Option.none
                | _ => Option.none
            | _ => Option.none
        | _ => Option.none
    | _ => Option.none

/-- Gregorian leap year. -/
def isLeap (y : Nat) : Bool := (y % 4 = 0 && y % 100 ≠ 0) || y % 400 = 0

/-- Days in a month, as `datetime` validates the day field. -/
def daysInMonth (y m : Nat) : Nat :=
  if m = 2 then (if isLeap y then 29 else 28)
  else if m = 4 ∨ m = 6 ∨ m = 9 ∨ m = 11 then 30 else 31

/-- Field-range validation performed by `strptime` and the `datetime`
constructor. -/
def validDateTime (d : PyDateTime) : Bool :=
  1 ≤ d.year && d.hour ≤ 23 && d.minute ≤ 59 && 1 ≤ d.day &&
    d.day ≤ daysInMonth d.year d.month

/-- `datetime.strptime(s, '%H:%M, %d %B %Y')`: ValueError when the string
does not match the format or a field is out of range. -/
def strptimeWiki (s : String) : Except PyError PyDateTime :=
  match parseWikiTime s.toList with
  | some d =>
    if validDateTime d then .ok d
    else .error (.valueError ("time data \x27" ++ s ++
      "\x27 does not match format \x27%H:%M, %d %B %Y\x27"))
  | Option.none => .error (.valueError ("time data \x27" ++ s ++
      "\x27 does not match format \x27%H:%M, %d %B %Y\x27"))

/-- A single `put_object` call: bucket, key, and serialized body. -/
structure S3Write where
  bucket : String
  key : String
  body : String
deriving DecidableEq

/-- `save(title, date, month_count)` from `index.py`: serialize the result
record (keys in dict insertion order) and write it under `{title}.json` in
the fixed `lambda-demo` bucket. -/
def save (title : String) (date : PyDateTime) (month_count : PyVal) : Except String S3Write :=
  let file_name := title ++ ".json"
  let bucket_name := "lambda-demo"
  match jsonDumps [("number_updates_last_month", month_count),
                   ("latest_update_time", PyVal.str date.isoformat)] with
  | some body => .ok ⟨bucket_name, file_name, body⟩
  | Option.none => .error "Object of type Tag is not JSON serializable"

/-- The object store: an association of (bucket, key) to body, in write order. -/
abbrev Store := List ((String × String) × String)

/-- S3 `put_object`: overwrite the body at an existing (bucket, key), or
append a fresh object. -/
def putObject : Store → S3Write → Store
  | [], w => [((w.bucket, w.key), w.body)]
  | (kv, b) :: rest, w =>
    if kv = (w.bucket, w.key) then (kv, w.body) :: rest else (kv, b) :: putObject rest w

/-- Apply a sequence of writes to the store. -/
def putAll (st : Store) (ws : List S3Write) : Store := ws.foldl putObject st

/-- GET query parameters. -/
abbrev Params := List (String × String)

/-- The network oracle: `requests.get` followed by BeautifulSoup parsing of
the body, i.e. a map from (url, params) to a document, or a raised error. -/
abbrev Fetch := String → Option Params → Except String Doc

/-- `_get(url, source, params)` from `index.py`: fetch the page and parse it
for the given source kind. -/
def pyGet (fetch : Fetch) (url : String) (source : String) (params : Option Params) :
    Except String PyVal :=
  match fetch url params with
  | .error e => .error e
  | .ok page => (parse page source).mapError PyError.str

/-- The fixed revision-history endpoint. -/
def wikiHistoryUrl : String := "https://en.wikipedia.org/w/index.php"

/-- `get_latest_update(title)` from `index.py`: fetch the history page with
`{'title': title, 'action': 'history'}` and `strptime` the extracted string. -/
def get_latest_update (fetch : Fetch) (title : String) : Except String PyDateTime :=
  match pyGet fetch wikiHistoryUrl "wiki" (some [("title", title), ("action", "history")]) with
  | .error e => .error e
  | .ok (PyVal.str s) => (strptimeWiki s).mapError PyError.str
  | .ok _ => .error "strptime() argument 1 must be str"

/-- The statistics-endpoint URL with title and both window dates embedded as
path segments. -/
def xtoolsUrl (title start_date end_date : String) : String :=
  "https://xtools.wmflabs.org/articleinfo/en.wikipedia.org/" ++ title ++ "/" ++
    start_date ++ "/" ++ end_date ++ "#month-counts"

/-- `get_month_count(title, last_date)` from `index.py`: window end is the
timestamp's date, start is day 1 of that month; fetch the stats URL with no
query parameters and parse the stats branch. -/
def get_month_count (fetch : Fetch) (title : String) (last_date : PyDateTime) :
    Except String PyVal :=
  let end_date := last_date.date
  let start_date := end_date.replaceDay 1
  pyGet fetch (xtoolsUrl title start_date.isoformat end_date.isoformat) "xtools" Option.none

/-- Drop leading whitespace characters. -/
def dropLeadingWs : List Char → List Char
  | [] => []
  | c :: cs => if c.isWhitespace then dropLeadingWs cs else c :: cs

/-- Python `str.strip()`: remove whitespace from both ends. -/
def pyStrip (s : String) : String :=
  ⟨((dropLeadingWs ((dropLeadingWs s.data).reverse)).reverse)⟩

/-- The lambda invocation event: an optional query-parameter mapping
(`event.get('queryStringParameters')`). -/
structure Event where
  queryStringParameters : Option Params

/-- The response envelope; `message` is the message inside the JSON body. -/
structure Response where
  statusCode : Nat
  message : String
deriving DecidableEq

/-- The serialized body `json.dumps({'message': ...})`. -/
def Response.body (r : Response) : String :=
  "\x7b\"message\": \"" ++ jsonEscape r.message ++ "\"\x7d"

/-- The three orchestration collaborators, exactly as the tests mock them:
time resolution, count resolution, and persistence (returning the writes it
performed, or a raised error). -/
structure Deps where
  get_latest_update : String → Except String PyDateTime
  get_month_count : String → PyDateTime → Except String PyVal
  save : String → PyDateTime → PyVal → Except String (List S3Write)

/-- The `try` block of `lambda_handler`: run the three steps in sequence;
the first raised error short-circuits into the 500 envelope with no writes. -/
def runSteps (deps : Deps) (title : String) : Response × List S3Write :=
  match deps.get_latest_update title with
  | .error e => (⟨500, "ERROR : " ++ e⟩, [])
  | .ok last_date =>
    match deps.get_month_count title last_date with
    | .error e => (⟨500, "ERROR : " ++ e⟩, [])
    | .ok month_count =>
      match deps.save title last_date month_count with
      | .error e => (⟨500, "ERROR : " ++ e⟩, [])
      | .ok ws =>
        (⟨200, "File " ++ title ++ ".json saved successful. Latest update: " ++
          last_date.pyStr ++ ". Month counts: " ++ month_count.pyStr⟩, ws)

/-- `lambda_handler(event, context)` from `index.py`: validate the query
parameters and the title (Python truthiness: a missing or empty mapping, and
a missing or empty-string title, fail; whitespace survives the check), trim
the title, then run the three steps. -/
def lambda_handler (deps : Deps) (event : Event) : Response × List S3Write :=
  match event.queryStringParameters with
  | Option.none => (⟨400, "ERROR : Bad Request(Missing query parameters)."⟩, [])
  | some query_string =>
    if query_string = [] then
      (⟨400, "ERROR : Bad Request(Missing query parameters)."⟩, [])
    else
      match dictGet "title" query_string with
      | Option.none => (⟨400, "ERROR : Bad Request(Missing title)."⟩, [])
      | some t =>
        if t = "" then (⟨400, "ERROR : Bad Request(Missing title)."⟩, [])
        else runSteps deps (pyStrip t)

/-- The concrete dependencies of the production handler: the real resolvers
over a fetch oracle, and the real `save` (one write on success). -/
def depsOf (fetch : Fetch) : Deps :=
  ⟨get_latest_update fetch, get_month_count fetch,
   fun t d mc => (save t d mc).map (fun w => [w])⟩

/-- The whole pipeline against a network oracle. -/
def pipeline (fetch : Fetch) (event : Event) : Response × List S3Write :=
  lambda_handler (depsOf fetch) event

/-- Dependencies as the unit test mocks them: fixed timestamp 2022-05-10
12:33, fixed count 13, no-op persister. -/
def stubDeps : Deps :=
  ⟨fun _ => .ok ⟨2022, 5, 10, 12, 33, 0⟩, fun _ _ => .ok (PyVal.int 13),
   fun _ _ _ => .ok []⟩

/-- The edit-count cell of the stats fixture. -/
def tdNode : Node := Node.elem "td" [("class", "sort-entry--edits"), ("data-value", "15")] []

/-- A table row owning the edit-count cell. -/
def trNode : Node := Node.elem "tr" [] [tdNode]

/-- The month-counts section of the stats fixture. -/
def secNode : Node := Node.elem "section" [("id", "month-counts")] [trNode]

/-- A stats page fixture with one matching row of data-value 15. -/
def statsDoc : Doc := [secNode]

/-- The revision-timestamp element of the history fixture. -/
def dateElem : Node := Node.elem "span" [("class", "mw-changeslist-date")] [Node.text "00:48, 23 July 2022"]

/-- A history page fixture with exactly one revision-timestamp element. -/
def wikiDoc : Doc := [dateElem]

/-- A network oracle serving the two fixtures; the history endpoint answers
only when the title query parameter equals `qtitle` (so theorems can observe
exactly which title string the pipeline sends upstream). -/
def demoFetch (qtitle : String) : Fetch := fun url params =>
  if url = wikiHistoryUrl then
    (if params = some [("title", qtitle), ("action", "history")] then .ok wikiDoc
     else .error "unexpected params")
  else .ok statsDoc

/-- After validation passes (non-empty mapping, truthy title), the handler
is exactly the step runner applied to the stripped title. -/
theorem handler_on_titled (deps : Deps) (qs : Params) (t : String)
    (hqs : qs ≠ []) (ht : dictGet "title" qs = some t) (htt : t ≠ "") :
    lambda_handler deps ⟨some qs⟩ = runSteps deps (pyStrip t) := by
  unfold lambda_handler
  simp [hqs, ht, htt]

/-- C1: for every request that passes validation, if any of the three
orchestration steps (update-time resolution, month-count resolution,
persistence) raises, the handler returns status 500 with a body message
containing the raised error's text ("ERROR : " followed by it), the
remaining steps are not executed (the result is independent of how they are
implemented), and no object is written to storage. -/
theorem C1_first_failure_short_circuits
    (glu : String → Except String PyDateTime)
    (gmc gmc2 : String → PyDateTime → Except String PyVal)
    (sv sv2 : String → PyDateTime → PyVal → Except String (List S3Write))
    (qs : Params) (t e : String)
    (hqs : qs ≠ []) (ht : dictGet "title" qs = some t) (htt : t ≠ "") :
    (glu (pyStrip t) = .error e →
      lambda_handler ⟨glu, gmc, sv⟩ ⟨some qs⟩ = (⟨500, "ERROR : " ++ e⟩, []) ∧
      lambda_handler ⟨glu, gmc, sv⟩ ⟨some qs⟩ = lambda_handler ⟨glu, gmc2, sv2⟩ ⟨some qs⟩) ∧
    (∀ dt, glu (pyStrip t) = .ok dt → gmc (pyStrip t) dt = .error e →
      lambda_handler ⟨glu, gmc, sv⟩ ⟨some qs⟩ = (⟨500, "ERROR : " ++ e⟩, []) ∧
      lambda_handler ⟨glu, gmc, sv⟩ ⟨some qs⟩ = lambda_handler ⟨glu, gmc, sv2⟩ ⟨some qs⟩) ∧
    (∀ dt mc, glu (pyStrip t) = .ok dt → gmc (pyStrip t) dt = .ok mc →
      sv (pyStrip t) dt mc = .error e →
      lambda_handler ⟨glu, gmc, sv⟩ ⟨some qs⟩ = (⟨500, "ERROR : " ++ e⟩, [])) := by
  refine ⟨fun h1 => ⟨?_, ?_⟩, fun dt h1 h2 => ⟨?_, ?_⟩, fun dt mc h1 h2 h3 => ?_⟩ <;>
    rw [handler_on_titled _ qs t hqs ht htt] <;>
    try rw [handler_on_titled _ qs t hqs ht htt]
  all_goals unfold runSteps
  all_goals simp [h1]
  all_goals simp [h2]
  all_goals simp [h3]

/-- Witness for C1 at a concrete input: a failing time-resolution step gives
the 500 envelope with the error text and no writes. -/
theorem C1_witness :
    lambda_handler ⟨fun _ => .error "boom", fun _ _ => .ok (PyVal.int 13),
        fun _ _ _ => .ok []⟩ ⟨some [("title", "A")]⟩ =
      (⟨500, "ERROR : boom"⟩, []) := by
  have h := C1_first_failure_short_circuits (fun _ => .error "boom")
    (fun _ _ => .ok (PyVal.int 13)) (fun _ _ => .ok (PyVal.int 13))
    (fun _ _ _ => .ok []) (fun _ _ _ => .ok []) [("title", "A")] "A" "boom"
    (by decide) (by rfl) (by decide)
  exact (h.1 rfl).1

/-- C2 fails as stated: a whitespace-only title is truthy in Python, so the
handler does not return 400 for it — with the test's stub collaborators the
request `{title: " "}` completes with status 200, not 400. -/
theorem C2_counterexample :
    (lambda_handler stubDeps ⟨some [("title", " ")]⟩).1.statusCode = 200 ∧
    ¬ (lambda_handler stubDeps ⟨some [("title", " ")]⟩).1.statusCode = 400 := by
  constructor
  · rfl
  · intro h
    simp [lambda_handler, runSteps, stubDeps, dictGet, pyStrip, dropLeadingWs] at h

/-- C2 amended: a missing or empty query-parameter mapping yields status 400
with the "Missing query parameters" message, and a present mapping whose
title is absent or the empty string yields status 400 with the "Missing
title" message; a whitespace-only title passes validation (it is stripped to
the empty string and processing proceeds). -/
theorem C2_validation_envelopes (deps : Deps) (ev : Event) :
    ((ev.queryStringParameters = Option.none ∨ ev.queryStringParameters = some []) →
      lambda_handler deps ev = (⟨400, "ERROR : Bad Request(Missing query parameters)."⟩, [])) ∧
    (∀ qs, ev.queryStringParameters = some qs → qs ≠ [] →
      (dictGet "title" qs = Option.none ∨ dictGet "title" qs = some "") →
      lambda_handler deps ev = (⟨400, "ERROR : Bad Request(Missing title)."⟩, [])) := by
  obtain ⟨o⟩ := ev
  constructor
  · rintro (h | h) <;> subst h <;> simp [lambda_handler]
  · rintro qs h hne (hh | hh) <;> subst h <;> simp [lambda_handler, hne, hh]

/-- Witness for C2 (amended) at concrete inputs: both 400 branches. -/
theorem C2_validation_envelopes_witness :
    lambda_handler stubDeps ⟨Option.none⟩ =
      (⟨400, "ERROR : Bad Request(Missing query parameters)."⟩, []) ∧
    lambda_handler stubDeps ⟨some [("title", "")]⟩ =
      (⟨400, "ERROR : Bad Request(Missing title)."⟩, []) := by
  refine ⟨(C2_validation_envelopes stubDeps ⟨Option.none⟩).1 (Or.inl rfl), ?_⟩
  exact (C2_validation_envelopes stubDeps ⟨some [("title", "")]⟩).2
    [("title", "")] rfl (by decide) (Or.inr rfl)

/-- C4: on input `{title: "Washington,_D.C."}` with the update-time resolver
stubbed to 2022-05-10 12:33, the month-count resolver stubbed to 13 and the
persister a no-op, the handler returns status 200 with exactly the expected
message. -/
theorem C4_end_to_end_scenario :
    lambda_handler stubDeps ⟨some [("title", "Washington,_D.C.")]⟩ =
      (⟨200, "File Washington,_D.C..json saved successful. Latest update: 2022-05-10 12:33:00. Month counts: 13"⟩,
        []) := by
  rfl

/-- Python-falsy validation failure: the query-parameter mapping is missing
or empty, or the title is missing or the empty string. -/
def failsValidation (ev : Event) : Bool :=
  match ev.queryStringParameters with
  | Option.none => true
  | some qs =>
    qs = [] || (match dictGet "title" qs with
                | Option.none => true
                | some t => t = "")

/-- C10: on every validation failure the handler returns the 400 envelope,
writes nothing to storage, and its result is independent of the three step
collaborators (so no fetch and no persistence can be performed). -/
theorem C10_validation_failure_no_side_effects (deps deps2 : Deps) (ev : Event)
    (h : failsValidation ev = true) :
    (lambda_handler deps ev).1.statusCode = 400 ∧
    (lambda_handler deps ev).2 = [] ∧
    lambda_handler deps ev = lambda_handler deps2 ev := by
  obtain ⟨o⟩ := ev
  match o with
  | Option.none => exact ⟨rfl, rfl, rfl⟩
  | some qs =>
    simp only [failsValidation, Bool.or_eq_true, decide_eq_true_eq] at h
    rcases h with h | h
    · subst h
      exact ⟨rfl, rfl, rfl⟩
    · rcases hdg : dictGet "title" qs with _ | t
      · by_cases hq : qs = []
        · subst hq
          exact ⟨rfl, rfl, rfl⟩
        · simp [lambda_handler, hq, hdg]
      · rw [hdg] at h
        simp only [decide_eq_true_eq] at h
        by_cases hq : qs = []
        · subst hq
          exact ⟨rfl, rfl, rfl⟩
        · subst h
          simp [lambda_handler, hq, hdg]

/-- Witness for C10 at a concrete input: a missing parameter mapping. -/
theorem C10_witness :
    (lambda_handler stubDeps ⟨Option.none⟩).1.statusCode = 400 :=
  (C10_validation_failure_no_side_effects stubDeps stubDeps ⟨Option.none⟩ rfl).1

/-- If no row owns an edit-count cell, the scan falls off the loop and
returns `None`. -/
theorem scanRows_of_no_match (rs : List Node)
    (h : ∀ r ∈ rs, find_td_edits r = Option.none) : scanRows rs = Option.none := by
  induction rs with
  | nil => rfl
  | cons r rest ih =>
    simp only [scanRows, h r (List.mem_cons_self r rest)]
    exact ih fun x hx => h x (List.mem_cons_of_mem r hx)

/-- The scan returns on the first row owning an edit-count cell; the rows
after it are never examined. -/
theorem scanRows_first_match (rs1 : List Node) (row : Node) (rs2 : List Node) (col : Node)
    (h1 : ∀ r ∈ rs1, find_td_edits r = Option.none)
    (h2 : find_td_edits row = some col) :
    scanRows (rs1 ++ row :: rs2) = dictGet "data-value" col.attrs := by
  induction rs1 with
  | nil => simp [scanRows, h2]
  | cons r rest ih =>
    simp only [List.cons_append, scanRows, h1 r (List.mem_cons_self r rest)]
    exact ih fun x hx => h1 x (List.mem_cons_of_mem r hx)

/-- C3 fails as stated: on a page with no month-counts section, the stats
extraction raises an AttributeError (calling `find_all` on `None`) instead of
yielding the null-like "missing" result. -/
theorem C3_counterexample :
    parse ([] : Doc) "stats" = .error PyError.attributeError := by rfl

/-- C3 amended: when the month-counts section exists, the stats extraction
scans its rows in document order, returns the data-value attribute of the
first edit-count cell found — the rows after the first match are never
scanned — and yields the null-like result when no row matches; when the
section is absent it raises an AttributeError instead. -/
theorem C3_stats_extraction (d : Doc) (sec : Node)
    (hsec : find_month_counts_section d = some sec) :
    ((∀ r ∈ find_all_tr sec, find_td_edits r = Option.none) →
      parse d "stats" = .ok PyVal.pynone) ∧
    (∀ rs1 row rs2 col, find_all_tr sec = rs1 ++ row :: rs2 →
      (∀ r ∈ rs1, find_td_edits r = Option.none) →
      find_td_edits row = some col →
      parse d "stats" = .ok (pyOfOpt (dictGet "data-value" col.attrs))) := by
  have hwiki : ¬ (("stats" : String) = "wiki") := by decide
  constructor
  · intro hall
    simp [parse, hwiki, hsec, scanRows_of_no_match _ hall, pyOfOpt]
  · intro rs1 row rs2 col heq hnone hcol
    simp [parse, hwiki, hsec, heq, scanRows_first_match rs1 row rs2 col hnone hcol]

/-- Witness for C3 (amended) on the stats fixture: the first matching row's
data-value is extracted. -/
theorem C3_stats_extraction_witness :
    parse statsDoc "stats" = .ok (PyVal.str "15") := by
  have h := (C3_stats_extraction statsDoc secNode rfl).2 [] trNode [] tdNode rfl
    (by simp) rfl
  exact h.trans (by rfl)

/-- The single-element history page with an empty revision-timestamp element:
the class element exists, yet extraction still raises an IndexError. -/
def emptyDateElem : Node := Node.elem "span" [("class", "mw-changeslist-date")] []

/-- C5 fails as stated: extraction does not fail "exactly when no element
with the class exists" — on a page whose (unique) revision-timestamp element
has empty contents, the element exists and extraction still raises an
IndexError (`contents[0]` on an empty list). -/
theorem C5_counterexample :
    (find_all_class "mw-changeslist-date" [emptyDateElem]).length = 1 ∧
    parse [emptyDateElem] "wiki" = .error PyError.indexError := ⟨rfl, rfl⟩

/-- C5 amended: for every history page whose revision-timestamp elements are
exactly one element whose first content is the text "00:48, 23 July 2022",
the history extraction returns exactly that string and the update-time
resolver returns the timestamp 2022-07-23 00:48; extraction raises an
IndexError whenever no element with that class exists (and can also fail
when the first such element has empty contents). -/
theorem C5_history_extraction (d : Doc) (n : Node) (rest : List Node)
    (fetch : Fetch) (title : String)
    (h1 : find_all_class "mw-changeslist-date" d = [n])
    (h2 : n.children = Node.text "00:48, 23 July 2022" :: rest)
    (hf : fetch wikiHistoryUrl (some [("title", title), ("action", "history")]) = .ok d) :
    parse d "wiki" = .ok (PyVal.str "00:48, 23 July 2022") ∧
    get_latest_update fetch title = .ok ⟨2022, 7, 23, 0, 48, 0⟩ ∧
    (∀ d2 : Doc, find_all_class "mw-changeslist-date" d2 = [] →
      parse d2 "wiki" = .error PyError.indexError) := by
  have hp : parse d "wiki" = .ok (PyVal.str "00:48, 23 July 2022") := by
    simp [parse, h1, h2]
  refine ⟨hp, ?_, ?_⟩
  · simp only [get_latest_update, pyGet, hf, hp]
    rfl
  · intro d2 hd2
    simp [parse, hd2]

/-- Witness for C5 (amended) on the history fixture. -/
theorem C5_history_extraction_witness :
    get_latest_update (demoFetch "A") "A" = .ok ⟨2022, 7, 23, 0, 48, 0⟩ :=
  (C5_history_extraction wikiDoc dateElem [] (demoFetch "A") "A" rfl rfl rfl).2.1

/-- C6: the month-count resolver consults the fetcher only at the statistics
URL whose path segments are the title, the first day of the timestamp's
month, and the timestamp's date — with no query parameters (two oracles
agreeing there produce the same result); for timestamp 2022-07-23 00:48 the
window is 2022-07-01 .. 2022-07-23, and the URL embeds title and both dates
as path segments. -/
theorem C6_reporting_window (f g : Fetch) (title : String) (d : PyDateTime)
    (h : f (xtoolsUrl title (d.date.replaceDay 1).isoformat d.date.isoformat) Option.none =
         g (xtoolsUrl title (d.date.replaceDay 1).isoformat d.date.isoformat) Option.none) :
    get_month_count f title d = get_month_count g title d ∧
    ((⟨2022, 7, 23, 0, 48, 0⟩ : PyDateTime).date.replaceDay 1).isoformat = "2022-07-01" ∧
    (⟨2022, 7, 23, 0, 48, 0⟩ : PyDateTime).date.isoformat = "2022-07-23" ∧
    xtoolsUrl "Washington,_D.C." "2022-07-01" "2022-07-23" =
      "https://xtools.wmflabs.org/articleinfo/en.wikipedia.org/Washington,_D.C./2022-07-01/2022-07-23#month-counts" := by
  refine ⟨?_, rfl, rfl, rfl⟩
  simp only [get_month_count, pyGet]
  rw [h]

/-- Witness for C6 at the concrete timestamp, with two identical oracles. -/
theorem C6_reporting_window_witness :
    ((⟨2022, 7, 23, 0, 48, 0⟩ : PyDateTime).date.replaceDay 1).isoformat = "2022-07-01" ∧
    (⟨2022, 7, 23, 0, 48, 0⟩ : PyDateTime).date.isoformat = "2022-07-23" := by
  have h := C6_reporting_window (fun _ _ => .error "e") (fun _ _ => .error "e") "T"
    ⟨2022, 7, 23, 0, 48, 0⟩ rfl
  exact ⟨h.2.1, h.2.2.1⟩

/-- String append is associative (via the underlying character lists). -/
theorem strAppendAssoc (a b c : String) : a ++ b ++ c = a ++ (b ++ c) := by
  apply String.ext
  simp [String.data_append, List.append_assoc]

/-- C7: for every serializable month count, `save` produces exactly the write
of the JSON record `{number_updates_last_month: <count>,
latest_update_time: <ISO-8601 timestamp>}` under key `{title}.json` in the
fixed bucket `lambda-demo`; the bucket of any successful write never depends
on the inputs. -/
theorem C7_persisted_record (title : String) (date : PyDateTime) (mc : PyVal) (j : String)
    (hj : mc.jsonStr = some j) :
    save title date mc = .ok
      ⟨"lambda-demo", title ++ ".json",
        "\x7b\"number_updates_last_month\": " ++ j ++ ", \"latest_update_time\": \"" ++
          jsonEscape date.isoformat ++ "\"\x7d"⟩ ∧
    (∀ t2 d2 m2 w w2, save title date mc = .ok w → save t2 d2 m2 = .ok w2 →
      w.bucket = w2.bucket) := by
  constructor
  · rcases mc with s | nnum | _ | nd
    case tag => exact absurd hj (by simp [PyVal.jsonStr])
    all_goals simp only [PyVal.jsonStr, Option.some.injEq] at hj
    all_goals subst hj
    all_goals simp only [save, jsonDumps, jsonDumpsEntries, PyVal.jsonStr, Option.map, commaJoin]
    all_goals refine congrArg Except.ok (congrArg (S3Write.mk "lambda-demo" (title ++ ".json")) ?_)
    all_goals apply String.ext
    all_goals simp [String.data_append, List.append_assoc, jsonEscape, jsonEscapeChar]
  · intro t2 d2 m2 w w2 hw hw2
    have hb : ∀ t0 d0 m0 w0, save t0 d0 m0 = .ok w0 → w0.bucket = "lambda-demo" := by
      intro t0 d0 m0 w0 h0
      unfold save at h0
      rcases hdump : jsonDumps [("number_updates_last_month", m0),
          ("latest_update_time", PyVal.str d0.isoformat)] with _ | b
      · rw [hdump] at h0
        simp at h0
      · rw [hdump] at h0
        simp only [Except.ok.injEq] at h0
        rw [← h0]
    rw [hb title date mc w hw, hb t2 d2 m2 w2 hw2]

/-- Witness for C7 at concrete inputs. -/
theorem C7_persisted_record_witness :
    save "A" ⟨2022, 5, 10, 12, 33, 0⟩ (PyVal.int 13) = .ok
      ⟨"lambda-demo", "A.json",
        "\x7b\"number_updates_last_month\": 13, \"latest_update_time\": \"2022-05-10T12:33:00\"\x7d"⟩ := by
  have h := (C7_persisted_record "A" ⟨2022, 5, 10, 12, 33, 0⟩ (PyVal.int 13) "13" rfl).1
  exact h.trans (by rfl)

/-- Re-putting the same object at the same (bucket, key) leaves the store
unchanged: the second write overwrites the first with the same body. -/
theorem putObject_overwrite_same (st : Store) (w : S3Write) :
    putObject (putObject st w) w = putObject st w := by
  induction st with
  | nil => simp [putObject]
  | cons p rest ih =>
    obtain ⟨kv, b⟩ := p
    by_cases h : kv = (w.bucket, w.key)
    · simp [putObject, h]
    · simp [putObject, h, ih]

/-- One pipeline invocation performs either no write (a 400 or 500 outcome)
or exactly one write. -/
theorem pipeline_writes_shape (fetch : Fetch) (ev : Event) :
    (pipeline fetch ev).2 = [] ∨ ∃ w, (pipeline fetch ev).2 = [w] := by
  obtain ⟨o⟩ := ev
  rcases o with _ | qs
  · left; rfl
  · by_cases hq : qs = []
    · subst hq; left; rfl
    · rcases hdg : dictGet "title" qs with _ | t
      · left; simp [pipeline, lambda_handler, hq, hdg]
      · by_cases ht : t = ""
        · subst ht; left; simp [pipeline, lambda_handler, hq, hdg]
        · have hrw : pipeline fetch ⟨some qs⟩ = runSteps (depsOf fetch) (pyStrip t) :=
            handler_on_titled (depsOf fetch) qs t hq hdg ht
          rw [hrw]
          rcases hglu : get_latest_update fetch (pyStrip t) with e | dt
          · left; simp [runSteps, depsOf, hglu]
          · rcases hgmc : get_month_count fetch (pyStrip t) dt with e | mc
            · left; simp [runSteps, depsOf, hglu, hgmc]
            · rcases hsv : save (pyStrip t) dt mc with e | w0
              · left; simp [runSteps, depsOf, hglu, hgmc, hsv, Except.map]
              · right; exact ⟨w0, by simp [runSteps, depsOf, hglu, hgmc, hsv, Except.map]⟩

/-- C8: the pipeline is a pure function of the fetch oracle and the event,
so a second invocation with identical upstream content performs exactly the
same writes — same key, byte-identical JSON — and applying that second run's
writes on top of the first run's leaves the store exactly as after one run
(the second write overwrites the first at the same key). -/
theorem C8_idempotent_rerun (fetch : Fetch) (ev : Event) (store : Store) :
    putAll (putAll store (pipeline fetch ev).2) (pipeline fetch ev).2 =
      putAll store (pipeline fetch ev).2 := by
  rcases pipeline_writes_shape fetch ev with h | ⟨w, h⟩
  · rw [h]; rfl
  · rw [h]
    exact putObject_overwrite_same store w

/-- A successful `save` writes under key `{title}.json` in the fixed bucket. -/
theorem save_ok_key (t0 : String) (d : PyDateTime) (mc : PyVal) (w : S3Write)
    (h : save t0 d mc = .ok w) : w.key = t0 ++ ".json" ∧ w.bucket = "lambda-demo" := by
  unfold save at h
  rcases hdump : jsonDumps [("number_updates_last_month", mc),
      ("latest_update_time", PyVal.str d.isoformat)] with _ | b
  · rw [hdump] at h
    simp at h
  · rw [hdump] at h
    simp only [Except.ok.injEq] at h
    rw [← h]
    exact ⟨rfl, rfl⟩

/-- C9 fails as stated: the handler strips the title BEFORE any use, so the
raw title is not sent verbatim upstream (an oracle that demands the verbatim
title `" A "` as query parameter rejects the request, while one demanding
the stripped `"A"` sees the run succeed), and the stripped title can be
empty: a whitespace-only title passes validation and is persisted under key
`".json"`. -/
theorem C9_counterexample :
    (pipeline (demoFetch " A ") ⟨some [("title", " A ")]⟩).1.statusCode = 500 ∧
    (pipeline (demoFetch "A") ⟨some [("title", " A ")]⟩).1.statusCode = 200 ∧
    (pipeline (demoFetch "") ⟨some [("title", "   ")]⟩).2.map S3Write.key = [".json"] :=
  ⟨rfl, rfl, rfl⟩

/-- C9 amended: for every request with a truthy title, the whitespace-trimmed
title is the string handed to every orchestration step — the upstream query
parameter included — and every object the pipeline writes has storage key
`{trimmed title}.json`; the trimmed title can be empty (whitespace-only raw
titles pass validation). -/
theorem C9_trimmed_title_use (deps : Deps) (qs : Params) (t : String)
    (hqs : qs ≠ []) (ht : dictGet "title" qs = some t) (htt : t ≠ "") :
    lambda_handler deps ⟨some qs⟩ = runSteps deps (pyStrip t) ∧
    (∀ fetch : Fetch, ∀ w ∈ (lambda_handler (depsOf fetch) ⟨some qs⟩).2,
      w.key = pyStrip t ++ ".json") := by
  refine ⟨handler_on_titled deps qs t hqs ht htt, ?_⟩
  intro fetch w hw
  rw [handler_on_titled (depsOf fetch) qs t hqs ht htt] at hw
  rcases hglu : get_latest_update fetch (pyStrip t) with e | dt
  · simp [runSteps, depsOf, hglu] at hw
  · rcases hgmc : get_month_count fetch (pyStrip t) dt with e | mc
    · simp [runSteps, depsOf, hglu, hgmc] at hw
    · rcases hsv : save (pyStrip t) dt mc with e | w0
      · simp [runSteps, depsOf, hglu, hgmc, hsv, Except.map] at hw
      · simp only [runSteps, depsOf, hglu, hgmc, hsv, Except.map, List.mem_singleton] at hw
        subst hw
        exact (save_ok_key (pyStrip t) dt mc _ hsv).1

/-- Witness for C9 (amended) at a concrete input: the leading/trailing
whitespace of `" A "` is stripped before the steps run. -/
theorem C9_trimmed_title_use_witness :
    lambda_handler stubDeps ⟨some [("title", " A ")]⟩ = runSteps stubDeps "A" := by
  have h := C9_trimmed_title_use stubDeps [("title", " A ")] " A " (by decide) rfl (by decide)
  exact h.1.trans (by rfl)

end LambdaDemo
